import Mathlib

set_option maxRecDepth 100000

/-!
Shallow embedding of the MedFlowAI backend (FastAPI + Supabase + OpenAI).

The embedding follows the Python sources:
  * `src/app/services/supabase_service.py` — record store adapter and summary builder
  * `src/app/services/scheduler_service.py` — alert generation flow and score extraction
  * `src/app/services/llm_service.py`      — LLM gateway wrapper
  * `src/app/main.py`                      — route handlers, prompt formatting, response interpretation

External effects are made explicit:
  * the Supabase client is a `Store`, each table being an `Except`-valued row list
    (`.error e` models the client raising with message `e`);
  * the OpenAI provider is a function `String → Except String (Option String)`
    (`.error` models a provider exception, `none` models a missing/empty completion);
  * Python `Exception` propagation is `Except String`; each service method wraps the
    propagated message exactly as the source's `raise Exception(f"...: {str(e)}")` does;
  * JSON values in `details` columns are modelled by the constructor distinction
    `Stored.parsable` / `Stored.unparsable` (whether Python `json.loads` succeeds
    and yields a dict), since no verified claim depends on the JSON grammar itself.
-/

/-- Substring test on character lists: `charsLeads n h` iff `n` is an initial
segment of `h` (used to model Python string `startswith`/`in`). -/
def charsLeads : List Char → List Char → Bool
  | [], _ => true
  | _ :: _, [] => false
  | a :: as, b :: bs => a == b && charsLeads as bs

/-- `charsHas needle hay` iff `needle` occurs contiguously in `hay`. -/
def charsHas (needle : List Char) : List Char → Bool
  | [] => charsLeads needle []
  | h :: t => charsLeads needle (h :: t) || charsHas needle t

/-- Python `needle in hay` on strings (contiguous substring test). -/
def strContains (hay needle : String) : Bool :=
  charsHas needle.toList hay.toList

/-- A row of the `profiles` table (`src/app/services/supabase_service.py`). -/
structure Profile where
  id : String
  full_name : String
  date_of_birth : String
  phone : String
  email : String
deriving DecidableEq, Repr

/-- The serialized `details` column of a `general` row.  `parsable kvs` stands for a
string that Python `json.loads` decodes to the dict `kvs`; `unparsable s` stands
for any other value (decode failure is tolerated and the raw value passes through). -/
inductive Stored where
  | parsable (kvs : List (String × String))
  | unparsable (s : String)
deriving DecidableEq, Repr

/-- A decoded `details` value as it appears in a summary entry: either a dict or
the raw pass-through value. -/
inductive Details where
  | obj (kvs : List (String × String))
  | raw (s : String)
deriving DecidableEq, Repr

/-- The decode step of `get_daily_summary`: `json.loads` inside `try/except: pass`. -/
def decodeDetails : Stored → Details
  | .parsable kvs => .obj kvs
  | .unparsable s => .raw s

/-- A row of the `general` table: one logged health observation.
The category tag column is named `type` in the database. -/
structure GeneralRow where
  id : Nat
  user_id : String
  data : String
  details : Stored
  type : String
  created_at : String
deriving DecidableEq, Repr

/-- A row of the `cabinete` (clinics) table.  The handlers read the name and
category under two different key spellings (`name`/`category` in
`schedule_appointment`, `nume`/`categorie` in `recommend_clinic`); rows are
dicts, so both keys are modelled as separate fields. -/
structure Clinic where
  id : String
  name : String
  nume : String
  category : String
  categorie : String
  email : String
deriving DecidableEq, Repr

/-- One entry of a daily-summary bucket (`get_daily_summary` appends
`{id, details, created_at}`). -/
structure SummaryEntry where
  id : Nat
  details : Details
  created_at : String
deriving DecidableEq, Repr

/-- The daily summary dict built by `get_daily_summary`. -/
structure Summary where
  user_id : String
  profile : Option Profile
  date : String
  consum : List SummaryEntry
  somn : List SummaryEntry
  vitale : List SummaryEntry
  sport : List SummaryEntry
  medicamente : List SummaryEntry
  total_records : Nat
deriving DecidableEq, Repr

/-- The Supabase client: each table is either its row list or a raised error. -/
structure Store where
  profiles : Except String (List Profile)
  general : Except String (List GeneralRow)
  cabinete : Except String (List Clinic)

/-- `SupabaseService.get_profile`: first row with matching id, `None` if absent;
storage errors re-raised with the wrapping message. -/
def get_profile (store : Store) (user_id : String) : Except String (Option Profile) :=
  match store.profiles with
  | .error e => .error ("Error fetching profile: " ++ e)
  | .ok ps => .ok (ps.find? (fun p => p.id == user_id))

/-- `SupabaseService.get_all_profiles`. -/
def get_all_profiles (store : Store) : Except String (List Profile) :=
  match store.profiles with
  | .error e => .error ("Error fetching profiles: " ++ e)
  | .ok ps => .ok ps

/-- `SupabaseService.select_general`.  As in the source, the `target_date`
argument is accepted (defaulting to today) but never applied as a query
filter: only `user_id` and the optional `type` filter reach the query. -/
def select_general (store : Store) (user_id : String) (target_date : String)
    (type_filter : Option String) : Except String (List GeneralRow) :=
  match store.general with
  | .error e => .error ("Error fetching general data: " ++ e)
  | .ok rows =>
    let q := rows.filter (fun r => r.user_id == user_id)
    match type_filter with
    | some t => .ok (q.filter (fun r => r.type == t))
    | none => .ok q

/-- `SupabaseService.get_all_cabinete`. -/
def get_all_cabinete (store : Store) : Except String (List Clinic) :=
  match store.cabinete with
  | .error e => .error ("Error fetching cabinete: " ++ e)
  | .ok cs => .ok cs

/-- The five bucket keys of the summary dict. -/
def bucketKeys : List String := ["consum", "somn", "vitale", "sport", "medicamente"]

/-- The summary dict keys whose values are not lists.  A fetched record whose
`type` equals one of these passes the `record_type in summary` membership test
but then crashes on `.append` (AttributeError), caught and re-raised by the
surrounding handler. -/
def nonListSummaryKeys : List String := ["user_id", "profile", "date", "total_records"]

/-- The summary entry appended for one fetched record. -/
def mkEntry (r : GeneralRow) : SummaryEntry :=
  ⟨r.id, decodeDetails r.details, r.created_at⟩

/-- One iteration of the bucketing loop in `get_daily_summary`. -/
def addRecord (s : Summary) (r : GeneralRow) : Except String Summary :=
  if r.type = "consum" then .ok { s with consum := s.consum ++ [mkEntry r] }
  else if r.type = "somn" then .ok { s with somn := s.somn ++ [mkEntry r] }
  else if r.type = "vitale" then .ok { s with vitale := s.vitale ++ [mkEntry r] }
  else if r.type = "sport" then .ok { s with sport := s.sport ++ [mkEntry r] }
  else if r.type = "medicamente" then .ok { s with medicamente := s.medicamente ++ [mkEntry r] }
  else if r.type ∈ nonListSummaryKeys then
    .error "AttributeError: object has no attribute append"
  else .ok s

/-- The bucketing loop of `get_daily_summary` over the fetched records. -/
def processRecords (s : Summary) : List GeneralRow → Except String Summary
  | [] => .ok s
  | r :: rest =>
    match addRecord s r with
    | .error e => .error e
    | .ok s' => processRecords s' rest

/-- `SupabaseService.get_daily_summary`: fetch the user's general rows (date
argument passed through but, per `select_general`, not filtered on), fetch the
profile, set `total_records` to the raw fetched count, then bucket by `type`.
Any exception is re-raised wrapped. -/
def get_daily_summary (store : Store) (user_id : String) (target_date : String) :
    Except String Summary :=
  let body : Except String Summary :=
    match select_general store user_id target_date none with
    | .error e => .error e
    | .ok general_data =>
      match get_profile store user_id with
      | .error e => .error e
      | .ok profile =>
        processRecords
          { user_id := user_id, profile := profile, date := target_date,
            consum := [], somn := [], vitale := [], sport := [], medicamente := [],
            total_records := general_data.length }
          general_data
  match body with
  | .ok s => .ok s
  | .error e => .error ("Error generating daily summary: " ++ e)

/-- Sum of the five bucket lengths of a summary. -/
def bucketsSum (s : Summary) : Nat :=
  s.consum.length + s.somn.length + s.vitale.length + s.sport.length + s.medicamente.length

/-- Digit-string to number: Python `int` on a non-empty all-digit string. -/
def digitsVal (cs : List Char) : Nat :=
  cs.foldl (fun a c => a * 10 + (c.toNat - '0'.toNat)) 0

/-- Python `int(s)` on the digit-filtered string: raises (`none`) when the
string is empty, otherwise parses the digits. -/
def parseDigits (cs : List Char) : Option Nat :=
  if cs.isEmpty then none else some (digitsVal cs)

/-- Score extraction in `generate_alert_for_user`
(`src/app/services/scheduler_service.py`): keep the digit characters, parse as
an integer, clamp with `max(0, min(100, score))`; any parse failure falls back
to 50.  (Python `str.isdigit` is modelled on ASCII digits.) -/
def extract_score (health_score : String) : Int :=
  match parseDigits (health_score.toList.filter Char.isDigit) with
  | none => 50
  | some n => max 0 (min 100 (n : Int))

/-- Specification-shaped restatement of score extraction: if the response has a
digit, the digit-subsequence value clamped to [0, 100]; otherwise 50. -/
def extract_score_spec (health_score : String) : Int :=
  if health_score.toList.any Char.isDigit then
    min 100 (digitsVal (health_score.toList.filter Char.isDigit) : Int)
  else 50

/-- Rendering of a decoded details value inside `_format_data_section`:
a dict renders as `k: v` pairs joined by `", "`, anything else via `f-string`
interpolation of the raw value. -/
def renderDetails : Details → String
  | .obj kvs => ", ".intercalate (kvs.map (fun p => p.1 ++ ": " ++ p.2))
  | .raw s => s

/-- `_format_data_section` from `src/app/main.py`: empty input yields the fixed
placeholder; otherwise one `  Record i: ...` line per entry, joined by newlines
(with the source's redundant second emptiness check kept). -/
def format_data_section (data_list : List SummaryEntry) : String :=
  if data_list.isEmpty then "- No data recorded"
  else
    let formatted := data_list.enum.map
      (fun p => "  Record " ++ toString (p.1 + 1) ++ ": " ++ renderDetails p.2.details)
    if formatted.isEmpty then "- No data recorded" else "\n".intercalate formatted

/-- `_format_data_section` from `src/app/services/scheduler_service.py`: same
shape with Romanian literals. -/
def format_data_section_ro (data_list : List SummaryEntry) : String :=
  if data_list.isEmpty then "- Nu există date înregistrate"
  else
    let formatted := data_list.enum.map
      (fun p => "  Înregistrare " ++ toString (p.1 + 1) ++ ": " ++ renderDetails p.2.details)
    if formatted.isEmpty then "- Nu există date înregistrate" else "\n".intercalate formatted

/-- Specification-shaped data-section formatter: placeholder exactly when the
bucket is empty, otherwise the joined record lines. -/
def format_data_section_spec (placeholder head : String) (data_list : List SummaryEntry) : String :=
  if data_list.isEmpty then placeholder
  else "\n".intercalate (data_list.enum.map
    (fun p => head ++ toString (p.1 + 1) ++ ": " ++ renderDetails p.2.details))

/-- `dict.get(k, "N/A")` on a decoded details dict. -/
def dget (kvs : List (String × String)) (k : String) : String :=
  ((kvs.find? (fun p => p.1 == k)).map Prod.snd).getD "N/A"

/-- `profile.get(field, "N/A")` where `profile = summary.get("profile", {})`. -/
def pget (p : Option Profile) (f : Profile → String) : String :=
  match p with
  | none => "N/A"
  | some pr => f pr

/-- The leading CSS block of `_format_health_summary_for_email`
(brace characters escaped; content reproduced in condensed form — no verified
claim depends on the style text). -/
def emailCss : String :=
  "<style> body \x7b font-family: Arial, sans-serif; \x7d .profile-box \x7b background-color: #f0f8ff; \x7d .section \x7b margin-bottom: 30px; \x7d table \x7b width: 100%; border-collapse: collapse; \x7d th \x7b background-color: #3498db; color: white; \x7d td \x7b padding: 10px; \x7d </style>"

/-- The patient-profile box of the email formatter. -/
def emailProfilePart (p : Option Profile) : String :=
  "<div class=\"profile-box\"><h3>📋 PATIENT PROFILE</h3>"
    ++ "<div class=\"profile-info\"><strong>Name:</strong> " ++ pget p Profile.full_name ++ "</div>"
    ++ "<div class=\"profile-info\"><strong>Date of Birth:</strong> " ++ pget p Profile.date_of_birth ++ "</div>"
    ++ "<div class=\"profile-info\"><strong>Phone:</strong> " ++ pget p Profile.phone ++ "</div>"
    ++ "</div>"

/-- One table section of the email formatter: emitted only when the bucket is
non-empty; at most the first 5 entries; entries whose details are not a dict
are skipped inside the table. -/
def emailTableParts (header headerRow : String) (cells : Nat → List (String × String) → String)
    (bucket : List SummaryEntry) : List String :=
  if bucket.isEmpty then []
  else
    ["<div class=\"section\"><h3>" ++ header ++ "</h3>", "<table>", headerRow]
      ++ (bucket.take 5).enum.filterMap (fun p =>
          match p.2.details with
          | .obj kvs => some (cells (p.1 + 1) kvs)
          | .raw _ => none)
      ++ ["</table></div>"]

/-- Vital-signs table row. -/
def emailVitalRow (idx : Nat) (kvs : List (String × String)) : String :=
  "<tr><td>#" ++ toString idx ++ "</td><td>" ++ dget kvs "tensiune" ++ "</td><td>"
    ++ dget kvs "puls" ++ "</td><td>" ++ dget kvs "oxigenare" ++ "</td><td>"
    ++ dget kvs "temperatura" ++ "</td></tr>"

/-- Sleep table row. -/
def emailSleepRow (idx : Nat) (kvs : List (String × String)) : String :=
  "<tr><td>#" ++ toString idx ++ "</td><td>" ++ dget kvs "ore_somn" ++ "</td><td>"
    ++ dget kvs "calitate" ++ "</td><td>" ++ dget kvs "treziri" ++ "</td></tr>"

/-- Physical-activity table row. -/
def emailSportRow (idx : Nat) (kvs : List (String × String)) : String :=
  "<tr><td>#" ++ toString idx ++ "</td><td>" ++ dget kvs "tip" ++ "</td><td>"
    ++ dget kvs "durata_minute" ++ "</td><td>" ++ dget kvs "intensitate" ++ "</td><td>"
    ++ dget kvs "calorii" ++ "</td></tr>"

/-- Nutrition table row. -/
def emailConsumRow (idx : Nat) (kvs : List (String × String)) : String :=
  "<tr><td>#" ++ toString idx ++ "</td><td>" ++ dget kvs "mese" ++ "</td><td>"
    ++ dget kvs "lichide_ml" ++ "</td><td>" ++ dget kvs "calorii" ++ "</td></tr>"

/-- Medication table row: all key-value pairs joined. -/
def emailMedRow (idx : Nat) (kvs : List (String × String)) : String :=
  "<tr><td>#" ++ toString idx ++ "</td><td>"
    ++ ", ".intercalate (kvs.map (fun p => p.1 ++ ": " ++ p.2)) ++ "</td></tr>"

/-- Medication section of the email formatter: unlike the other four category
sections it has an `else` branch emitting a fixed placeholder paragraph. -/
def emailMedParts (bucket : List SummaryEntry) : List String :=
  if bucket.isEmpty then
    ["<div class=\"section\"><h3>💊 MEDICATION</h3><p>No medication records.</p></div>"]
  else emailTableParts "💊 MEDICATION" "<tr><th>Record</th><th>Details</th></tr>" emailMedRow bucket

/-- The `html_parts` list assembled by `_format_health_summary_for_email`
(`src/app/main.py`): CSS, profile box, then the vitals / sleep / activity /
nutrition sections — each present only when its bucket is non-empty — and the
medication section with its placeholder branch.  HTML fragment whitespace is
not reproduced character-for-character. -/
def emailParts (s : Summary) : List String :=
  [emailCss, emailProfilePart s.profile]
    ++ emailTableParts "💓 RECENT VITAL SIGNS"
        "<tr><th>Record</th><th>Blood Pressure</th><th>Pulse (bpm)</th><th>Oxygen (%)</th><th>Temperature (°C)</th></tr>"
        emailVitalRow s.vitale
    ++ emailTableParts "😴 SLEEP PATTERNS"
        "<tr><th>Record</th><th>Sleep Hours</th><th>Quality</th><th>Night Wakings</th></tr>"
        emailSleepRow s.somn
    ++ emailTableParts "🏃 PHYSICAL ACTIVITY"
        "<tr><th>Record</th><th>Type</th><th>Duration (min)</th><th>Intensity</th><th>Calories</th></tr>"
        emailSportRow s.sport
    ++ emailTableParts "🍽️ NUTRITION"
        "<tr><th>Record</th><th>Meals</th><th>Liquids (ml)</th><th>Calories</th></tr>"
        emailConsumRow s.consum
    ++ emailMedParts s.medicamente

/-- `_format_health_summary_for_email`: the joined parts. -/
def format_health_summary_for_email (s : Summary) : String :=
  "\n".intercalate (emailParts s)

/-- Remove leading whitespace characters from a character list. -/
def charsTrimLeft : List Char → List Char
  | [] => []
  | c :: cs => if c.isWhitespace then charsTrimLeft cs else c :: cs

/-- Python `str.strip()`: remove leading and trailing whitespace. -/
def pyStrip (s : String) : String :=
  String.mk ((charsTrimLeft ((charsTrimLeft s.toList).reverse)).reverse)

/-- The clinic-match test of `schedule_appointment` (`src/app/main.py`):
exact id match against the stripped response, or the clinic name occurring as
a substring of the raw response. -/
def clinicMatch (llm_selection : String) (c : Clinic) : Bool :=
  c.id == pyStrip llm_selection || strContains llm_selection c.name

/-- The selection loop of `schedule_appointment`: scan in order, `break` on the
first match. -/
def pickClinic (llm_selection : String) : List Clinic → Option Clinic
  | [] => none
  | c :: rest =>
    if c.id == pyStrip llm_selection || strContains llm_selection c.name then some c
    else pickClinic llm_selection rest

/-- Clinic-ID extraction of `schedule_appointment`: the loop result, falling
back to the first clinic when no clinic matched. -/
def schedule_select (clinics : List Clinic) (llm_selection : String) : Option Clinic :=
  match pickClinic llm_selection clinics with
  | some c => some c
  | none => clinics.head?

/-- Specification-shaped clinic selection: first clinic satisfying
`clinicMatch`, else the first clinic of the list. -/
def schedule_select_spec (clinics : List Clinic) (llm_selection : String) : Option Clinic :=
  match clinics.find? (clinicMatch llm_selection) with
  | some c => some c
  | none => clinics.head?

/-- One entry of the parsed `recommendations` array in `recommend_clinic`. -/
structure Recommendation where
  clinic_name : String
  score : Int
  reasoning : String
deriving DecidableEq, Repr

/-- A clinic enriched with its recommendation score and reasoning
(`{**matching_clinic, recommendation_score, recommendation_reasoning}`). -/
structure EnrichedClinic where
  clinic : Clinic
  recommendation_score : Int
  recommendation_reasoning : String
deriving DecidableEq, Repr

/-- Python `str.lower()` (modelled on the character list). -/
def pyLower (s : String) : String :=
  String.mk (s.toList.map Char.toLower)

/-- The matching loop of `recommend_clinic`: each recommendation is resolved to
the first stored clinic whose `nume` equals its `clinic_name` case-insensitively;
recommendations without a match are dropped. -/
def match_recommendations (cabinete : List Clinic) (recs : List Recommendation) :
    List EnrichedClinic :=
  recs.filterMap (fun r =>
    (cabinete.find? (fun c => pyLower c.nume == pyLower r.clinic_name)).map
      (fun c => ⟨c, r.score, r.reasoning⟩))

/-- The recommendation post-processing of `recommend_clinic`: `parsed` is the
outcome of `json.loads` plus the `recommendations` lookup (`none` on any parse
failure, which the bare `except` turns into an empty list); when the matched
list ends up empty, the full unranked clinic list is returned instead. -/
def recommend_result (cabinete : List Clinic) (parsed : Option (List Recommendation)) :
    List EnrichedClinic ⊕ List Clinic :=
  let recommendations := parsed.getD []
  let matched := match_recommendations cabinete recommendations
  if matched.isEmpty then Sum.inr cabinete else Sum.inl matched

/-- `get_llm_response` (`src/app/services/llm_service.py`): invoke the provider,
return the completion text (empty string when the provider returns no content),
re-raise provider exceptions wrapped.  The system message and sampling
parameters do not affect the modelled control flow and are omitted. -/
def get_llm_response (provider : String → Except String (Option String)) (prompt : String) :
    Except String String :=
  match provider prompt with
  | .error e => .error ("OpenAI API error: " ++ e)
  | .ok none => .ok ""
  | .ok (some t) => .ok t

/-- `summary.get("profile", {}).get("full_name", default)`. -/
def profileName (s : Summary) (default : String) : String :=
  match s.profile with
  | none => default
  | some p => p.full_name

/-- `summary.get("profile", {}).get("date_of_birth", "N/A")`. -/
def profileDob (s : Summary) : String :=
  match s.profile with
  | none => "N/A"
  | some p => p.date_of_birth

/-- The alert prompt of `generate_alert_for_user`
(`src/app/services/scheduler_service.py`): profile header plus the four
Romanian-formatted category sections (medication excluded); the fixed closing
instruction text is elided as no verified claim depends on it. -/
def alert_prompt (target_date : String) (s : Summary) : String :=
  "Analizează datele medicale zilnice pentru " ++ profileName s "Utilizator"
    ++ " din data de " ++ target_date ++ ":\n\nPROFIL PACIENT:\n- Nume: "
    ++ profileName s "Utilizator" ++ "\n- Data nașterii: " ++ profileDob s
    ++ "\n\nDATE ZILNICE (" ++ target_date ++ "):\n\nCONSUM (mese și lichide):\n"
    ++ format_data_section_ro s.consum ++ "\n\nSOMN:\n" ++ format_data_section_ro s.somn
    ++ "\n\nVITALE (tensiune, puls, oxigenare):\n" ++ format_data_section_ro s.vitale
    ++ "\n\nSPORT (activitate fizică):\n" ++ format_data_section_ro s.sport

/-- The health-score prompt of `generate_alert_for_user` (scoring-rubric
instruction text elided — it is an instruction to the LLM, not local logic). -/
def score_prompt (s : Summary) : String :=
  "Bazat pe datele medicale de mai sus pentru " ++ profileName s "Utilizator"
    ++ ", evaluează starea de sănătate generală cu un scor între 0-100"

/-- Result dict of `generate_alert_for_user`; keys absent on a given branch are
`none`. -/
structure AlertResult where
  user_id : String
  date : Option String
  summary : Option Summary
  feedback : Option String
  health_score : Option Int
  success : Bool
  error : Option String
deriving DecidableEq, Repr

/-- `generate_alert_for_user` (`src/app/services/scheduler_service.py`),
returning the result dict together with the number of LLM-gateway invocations
made.  The whole body runs under `try/except Exception`, so every failure is
returned as `success = false` with the exception message; the duplicated
score-extraction block of the source computes the same value twice and is
modelled once. -/
def generate_alert_for_user (store : Store) (provider : String → Except String (Option String))
    (user_id : String) (target_date : String) : AlertResult × Nat :=
  match get_daily_summary store user_id target_date with
  | .error e => (⟨user_id, none, none, none, none, false, some e⟩, 0)
  | .ok summary =>
    if summary.profile.isNone then
      (⟨user_id, none, none, none, none, false, some "User not found"⟩, 0)
    else if summary.total_records == 0 then
      (⟨user_id, some target_date, none,
        some "Nu există date înregistrate pentru această zi.", none, true, none⟩, 0)
    else
      match get_llm_response provider (alert_prompt target_date summary) with
      | .error e => (⟨user_id, none, none, none, none, false, some e⟩, 1)
      | .ok feedback =>
        match get_llm_response provider (score_prompt summary) with
        | .error e => (⟨user_id, none, none, none, none, false, some e⟩, 2)
        | .ok health_score =>
          (⟨user_id, some target_date, some summary, some feedback,
            some (extract_score health_score), true, none⟩, 2)

/-- `generate_alerts_for_all_users`: fetch all profiles (a failure here is
re-raised by the surrounding `except: raise`), then run the per-user flow for
every profile with a truthy id, collecting all results. -/
def generate_alerts_for_all_users (store : Store)
    (provider : String → Except String (Option String)) (target_date : String) :
    Except String (List AlertResult) :=
  match get_all_profiles store with
  | .error e => .error e
  | .ok profiles =>
    .ok ((profiles.filter (fun p => p.id ≠ "")).map
      (fun p => (generate_alert_for_user store provider p.id target_date).1))

/-- Outcome of a route handler: a payload, an HTTP 404, or an HTTP 500. -/
inductive ApiOutcome (α : Type) where
  | ok (a : α)
  | notFound (detail : String)
  | serverError (detail : String)
deriving DecidableEq, Repr

/-- Response model of `/gen_alert`. -/
structure GenerateAlertResponse where
  user_id : String
  date : String
  summary : Summary
  feedback : String
  success : Bool
deriving DecidableEq, Repr

/-- The fixed no-data message of `/gen_alert`. -/
def genAlertNoDataMessage : String :=
  "Nu există date înregistrate pentru această zi. Vă rugăm să adăugați date despre consum, somn, vitale și activitate fizică pentru a primi recomandări personalizate."

/-- The `/gen_alert` prompt (`src/app/main.py`): profile header (with phone)
plus the four category sections rendered by the English-placeholder
`_format_data_section`; closing instruction text elided. -/
def gen_alert_prompt (target_date : String) (s : Summary) : String :=
  "Analizează datele medicale zilnice pentru " ++ profileName s "Utilizator"
    ++ " din data de " ++ target_date ++ ":\n\nPROFIL PACIENT:\n- Nume: "
    ++ profileName s "Utilizator" ++ "\n- Data nașterii: " ++ profileDob s
    ++ "\n- Telefon: " ++ pget s.profile Profile.phone
    ++ "\n\nDATE ZILNICE (" ++ target_date ++ "):\n\nCONSUM (mese și lichide):\n"
    ++ format_data_section s.consum ++ "\n\nSOMN:\n" ++ format_data_section s.somn
    ++ "\n\nVITALE (tensiune, puls, oxigenare):\n" ++ format_data_section s.vitale
    ++ "\n\nSPORT (activitate fizică):\n" ++ format_data_section s.sport

/-- The `/gen_alert` handler core (`generate_alert` in `src/app/main.py`),
after request parsing and date validation, returning the outcome and the
number of LLM-gateway invocations. -/
def gen_alert (store : Store) (provider : String → Except String (Option String))
    (user_id : String) (target_date : String) : ApiOutcome GenerateAlertResponse × Nat :=
  match get_daily_summary store user_id target_date with
  | .error e => (.serverError ("Failed to generate alert: " ++ e), 0)
  | .ok summary =>
    if summary.profile.isNone then
      (.notFound ("User with ID " ++ user_id ++ " not found"), 0)
    else if summary.total_records == 0 then
      (.ok ⟨user_id, target_date, summary, genAlertNoDataMessage, true⟩, 0)
    else
      match get_llm_response provider (gen_alert_prompt target_date summary) with
      | .error e => (.serverError ("Failed to generate alert: " ++ e), 1)
      | .ok feedback => (.ok ⟨user_id, target_date, summary, feedback, true⟩, 1)

/-- Response model of `/ask`. -/
structure AskResponse where
  user_id : String
  question : String
  generated_feedback : String
  summary : Summary
  success : Bool
deriving DecidableEq, Repr

/-- The `/ask` prompt: the question plus all five category sections (medication
included), rendered by `_format_data_section`; instruction text elided. -/
def ask_prompt (question : String) (s : Summary) : String :=
  "Users question: " ++ question ++ "\n\nUSER PROFILE:\n- Name: " ++ profileName s "User"
    ++ "\n- Date of Birth: " ++ profileDob s
    ++ "\n\nHEALTH DATA:\n\nCONSUMPTION (meals and liquids):\n" ++ format_data_section s.consum
    ++ "\n\nSLEEP:\n" ++ format_data_section s.somn
    ++ "\n\nVITALS (blood pressure, pulse, oxygen):\n" ++ format_data_section s.vitale
    ++ "\n\nSPORTS (physical activity):\n" ++ format_data_section s.sport
    ++ "\n\nMEDICATION:\n" ++ format_data_section s.medicamente

/-- The `/ask` handler core (`ask_llm` in `src/app/main.py`), after request
parsing, returning the outcome and the number of LLM-gateway invocations. -/
def ask_llm (store : Store) (provider : String → Except String (Option String))
    (user_id : String) (question : String) (today : String) : ApiOutcome AskResponse × Nat :=
  match get_daily_summary store user_id today with
  | .error e => (.serverError ("Failed to get health feedback: " ++ e), 0)
  | .ok summary =>
    if summary.profile.isNone then
      (.notFound ("User with ID " ++ user_id ++ " not found"), 0)
    else
      match get_llm_response provider (ask_prompt question summary) with
      | .error e => (.serverError ("Failed to get health feedback: " ++ e), 1)
      | .ok result => (.ok ⟨user_id, question, result, summary, true⟩, 1)

/-- Profile projection returned by `recommend_clinic`. -/
structure RecommendProfile where
  full_name : String
  email : String
  phone : String
  date_of_birth : String
deriving DecidableEq, Repr

/-- Response payload of `recommend_clinic`: profile projection, the recommended
clinics (ranked enriched list or the full unranked fallback), and the clinic
count. -/
structure RecommendResponse where
  profile : RecommendProfile
  recommended_clinics : List EnrichedClinic ⊕ List Clinic
  total_clinics : Nat
deriving DecidableEq, Repr

/-- One chat message (role, content) of the `recommend_clinic` request body. -/
def chatLine (m : String × String) : String :=
  (if m.1 == "user" then "Patient" else "AI") ++ ": " ++ m.2

/-- The `recommend_clinic` prompt: chat transcript, compact per-category record
counts, and the clinic list (`- nume (Category: categorie)`); fixed instruction
text and the JSON response template elided. -/
def recommend_prompt (s : Summary) (chat : List (String × String))
    (cabinete : List Clinic) : String :=
  "PATIENT PROFILE:\n- Name: " ++ profileName s "Unknown"
    ++ "\n- Date of Birth: " ++ profileDob s
    ++ "\n\nHEALTH DATA SUMMARY:\nNutrition: " ++ toString s.consum.length
    ++ " records\nSleep: " ++ toString s.somn.length
    ++ " records\nVitals: " ++ toString s.vitale.length
    ++ " records\nActivity: " ++ toString s.sport.length
    ++ " records\n\nCHAT CONVERSATION:\n" ++ "\n".intercalate (chat.map chatLine)
    ++ "\n\nAVAILABLE CLINICS:\n"
    ++ "\n".intercalate (cabinete.map
        (fun c => "- " ++ c.nume ++ " (Category: " ++ c.categorie ++ ")"))

/-- The `recommend_clinic` handler core (`src/app/main.py`), after request
parsing; `parseRecs` models `json.loads` plus the `recommendations` lookup on
the LLM response.  Returns the outcome and the number of LLM invocations. -/
def recommend_clinic (store : Store) (provider : String → Except String (Option String))
    (parseRecs : String → Option (List Recommendation)) (user_id : String)
    (chat : List (String × String)) (target_date : String) :
    ApiOutcome RecommendResponse × Nat :=
  match get_daily_summary store user_id target_date with
  | .error e => (.serverError ("Failed to recommend clinic: " ++ e), 0)
  | .ok summary =>
    if summary.profile.isNone then (.notFound "User profile not found", 0)
    else
      match get_all_cabinete store with
      | .error e => (.serverError ("Failed to recommend clinic: " ++ e), 0)
      | .ok cabinete =>
        if cabinete.isEmpty then (.notFound "No clinics available", 0)
        else
          match get_llm_response provider (recommend_prompt summary chat cabinete) with
          | .error e => (.serverError ("Failed to recommend clinic: " ++ e), 1)
          | .ok llm_response =>
            (.ok ⟨⟨profileName summary "Patient",
                   (summary.profile.map Profile.email).getD "patient@example.com",
                   (summary.profile.map Profile.phone).getD "+40 XXX XXX XXX",
                   profileDob summary⟩,
                  recommend_result cabinete (parseRecs llm_response),
                  cabinete.length⟩, 1)

/-- A value of a generic table row (the write-path handlers treat rows as
dicts; `{}` is the empty row). -/
inductive PyVal where
  | s (v : String)
  | b (v : Bool)
deriving DecidableEq, Repr

/-- A generic table row as a key-value dict; `[]` models Python `{}`. -/
abbrev Row := List (String × PyVal)

/-- Canonical rendering of `json.dumps` on a details dict (modelled: the exact
serialization format of the Python json library is immaterial to the claims). -/
def json_dumps (kvs : List (String × String)) : String :=
  "\x7b" ++ ", ".intercalate (kvs.map (fun p => "\"" ++ p.1 ++ "\": \"" ++ p.2 ++ "\"")) ++ "\x7d"

/-- `json.dumps(details) if isinstance(details, dict) else details` in
`insert_general`. -/
def dumpDetails : Details → String
  | .obj kvs => json_dumps kvs
  | .raw s => s

/-- The record dict built by `SupabaseService.insert_general`. -/
def insert_general_record (user_id : String) (data : String) (details : Details)
    (type_ : String) : Row :=
  [("user_id", .s user_id), ("data", .s data), ("details", .s (dumpDetails details)),
   ("type", .s type_)]

/-- `SupabaseService.insert_general`: build the record, send it to the store
(`storeResp` is the client response to the insert), return the first returned
row or `{}` when the store returns no rows; store errors re-raised wrapped. -/
def insert_general (storeResp : Row → Except String (List Row)) (user_id : String)
    (data : String) (details : Details) (type_ : String) : Except String Row :=
  match storeResp (insert_general_record user_id data details type_) with
  | .error e => .error ("Error inserting general data: " ++ e)
  | .ok rows => .ok (rows.headD [])

/-- The record dict built by `SupabaseService.create_programare`. -/
def create_programare_record (user_id cabinet_id data : String) (active : Bool) : Row :=
  [("user_id", .s user_id), ("cabinet_id", .s cabinet_id), ("data", .s data),
   ("active", .b active)]

/-- `SupabaseService.create_programare`: same result convention as
`insert_general`. -/
def create_programare (storeResp : Row → Except String (List Row)) (user_id : String)
    (cabinet_id : String) (data : String) (active : Bool) : Except String Row :=
  match storeResp (create_programare_record user_id cabinet_id data active) with
  | .error e => .error ("Error creating programare: " ++ e)
  | .ok rows => .ok (rows.headD [])

/-- `SupabaseService.update_programare_status`: send the `{"active": active}`
payload for the given appointment id, return the first returned row or `{}`
when the store returns no rows; store errors re-raised wrapped. -/
def update_programare_status (storeResp : String → Row → Except String (List Row))
    (programare_id : String) (active : Bool) : Except String Row :=
  match storeResp programare_id [("active", .b active)] with
  | .error e => .error ("Error updating programare: " ++ e)
  | .ok rows => .ok (rows.headD [])

/-! Concrete fixtures used by the example conjuncts and witnesses. -/

/-- Example profile row. -/
def pEx : Profile := ⟨"u1", "Ana Pop", "1990-01-01", "0700000000", "ana@example.com"⟩

/-- Example nutrition record on 2024-01-01. -/
def rowConsum : GeneralRow := ⟨1, "u1", "2024-01-01", .parsable [("mese", "2")], "consum", "t1"⟩

/-- Example store: one profile, one nutrition record dated 2024-01-01. -/
def storeEx : Store := ⟨.ok [pEx], .ok [rowConsum], .ok []⟩

/-- The summary `get_daily_summary` builds from `storeEx` for 2024-01-02. -/
def sEx : Summary :=
  ⟨"u1", some pEx, "2024-01-02", [⟨1, .obj [("mese", "2")], "t1"⟩], [], [], [], [], 1⟩

/-- A store with no profiles and no records. -/
def storeNoProf : Store := ⟨.ok [], .ok [], .ok []⟩

/-- The summary built from `storeNoProf`: profile absent, no records. -/
def sNoProf : Summary := ⟨"u2", none, "2024-01-02", [], [], [], [], [], 0⟩

/-- A store with a profile but no records. -/
def storeProfOnly : Store := ⟨.ok [pEx], .ok [], .ok []⟩

/-- The summary built from `storeProfOnly` for user u1: profile present,
zero records. -/
def sProfOnly : Summary := ⟨"u1", some pEx, "2024-01-02", [], [], [], [], [], 0⟩

/-- A provider that always answers with a fixed completion. -/
def providerOk : String → Except String (Option String) := fun _ => .ok (some "feedback")

/-- Example clinic Cardio with identifier c1. -/
def cCardio : Clinic := ⟨"c1", "Cardio", "Cardio", "Cardiology", "Cardiologie", "cardio@x.com"⟩

/-- Example clinic Derma with identifier c2. -/
def cDerma : Clinic := ⟨"c2", "Derma", "Derma", "Dermatology", "Dermatologie", "derma@x.com"⟩

/-- Summary with empty buckets used to exercise the email formatter. -/
def sEmpty : Summary := ⟨"u1", some pEx, "2024-01-02", [], [], [], [], [], 0⟩

/-! Helper lemmas (shared by the claim theorems). -/

/-- A filter keeps the full length exactly when every element satisfies the
predicate. -/
theorem filter_len_eq_iff (p : α → Bool) (l : List α) :
    (l.filter p).length = l.length ↔ ∀ a ∈ l, p a := by
  induction l with
  | nil => simp
  | cons a as ih =>
    by_cases h : p a
    · simp [List.filter_cons, h, ih]
    · simp only [List.filter_cons, h]
      constructor
      · intro hl
        have := List.length_filter_le p as
        simp at hl
        omega
      · intro hall
        exact absurd (hall a (List.mem_cons_self a as)) (by simp [h])

/-- A successful `addRecord` step keeps `total_records` and grows the bucket
sum by one exactly for the five known category tags. -/
theorem addRecord_ok (s : Summary) (r : GeneralRow) (s' : Summary)
    (h : addRecord s r = .ok s') :
    s'.total_records = s.total_records ∧
    bucketsSum s' = bucketsSum s + (if r.type ∈ bucketKeys then 1 else 0) := by
  unfold addRecord at h
  split at h
  · next h1 =>
    injection h with h
    subst h
    have hm : r.type ∈ bucketKeys := by simp [bucketKeys, h1]
    refine ⟨rfl, ?_⟩
    simp [bucketsSum, hm]
    omega
  · split at h
    · next h1 =>
      injection h with h
      subst h
      have hm : r.type ∈ bucketKeys := by simp [bucketKeys, h1]
      refine ⟨rfl, ?_⟩
      simp [bucketsSum, hm]
      omega
    · split at h
      · next h1 =>
        injection h with h
        subst h
        have hm : r.type ∈ bucketKeys := by simp [bucketKeys, h1]
        refine ⟨rfl, ?_⟩
        simp [bucketsSum, hm]
        omega
      · split at h
        · next h1 =>
          injection h with h
          subst h
          have hm : r.type ∈ bucketKeys := by simp [bucketKeys, h1]
          refine ⟨rfl, ?_⟩
          simp [bucketsSum, hm]
          omega
        · split at h
          · next h1 =>
            injection h with h
            subst h
            have hm : r.type ∈ bucketKeys := by simp [bucketKeys, h1]
            refine ⟨rfl, ?_⟩
            simp [bucketsSum, hm]
            omega
          · split at h
            · simp at h
            · next h1 h2 h3 h4 h5 h6 =>
              injection h with h
              subst h
              have hm : r.type ∉ bucketKeys := by
                simp [bucketKeys, h1, h2, h3, h4, h5]
              refine ⟨rfl, ?_⟩
              simp [hm]

/-- A successful bucketing run keeps `total_records` and adds to the bucket sum
one entry per record with a known category tag. -/
theorem processRecords_ok (l : List GeneralRow) (s s' : Summary)
    (h : processRecords s l = .ok s') :
    s'.total_records = s.total_records ∧
    bucketsSum s' = bucketsSum s + (l.filter (fun r => decide (r.type ∈ bucketKeys))).length := by
  induction l generalizing s with
  | nil =>
    simp only [processRecords, Except.ok.injEq] at h
    subst h
    simp
  | cons r rest ih =>
    simp only [processRecords] at h
    cases ha : addRecord s r with
    | error e => rw [ha] at h; simp at h
    | ok s1 =>
      rw [ha] at h
      obtain ⟨ht2, hb2⟩ := addRecord_ok s r s1 ha
      obtain ⟨ht, hb⟩ := ih s1 h
      refine ⟨by omega, ?_⟩
      by_cases hm : r.type ∈ bucketKeys
      · simp only [List.filter_cons, hm, decide_True, if_true, List.length_cons]
        rw [if_pos hm] at hb2
        omega
      · simp only [List.filter_cons, hm, decide_False, Bool.false_eq_true, if_false]
        rw [if_neg hm] at hb2
        omega

/-- The selection loop of `schedule_appointment` computes `List.find?` of the
match predicate. -/
theorem pickClinic_eq_find (llm_selection : String) (clinics : List Clinic) :
    pickClinic llm_selection clinics = clinics.find? (clinicMatch llm_selection) := by
  induction clinics with
  | nil => rfl
  | cons c rest ih =>
    by_cases h : clinicMatch llm_selection c
    · have h' : (c.id == pyStrip llm_selection || strContains llm_selection c.name) = true := h
      simp [pickClinic, h', List.find?_cons_of_pos _ h]
    · have h' : (c.id == pyStrip llm_selection || strContains llm_selection c.name) = false := by
        simpa [clinicMatch] using h
      rw [List.find?_cons_of_neg _ (by simpa [clinicMatch] using h')]
      simp [pickClinic, h', ih]


/-- C1: contrary to the claim, `get_daily_summary` applies no date filter:
`select_general` ignores its `target_date` argument entirely, so a record dated
2024-01-01 is fetched, bucketed and counted for target date 2024-01-02. -/
theorem C1_daily_summary_ignores_date :
    (∀ (st : Store) (uid d d' : String) (tf : Option String),
      select_general st uid d tf = select_general st uid d' tf) ∧
    get_daily_summary storeEx "u1" "2024-01-02" = .ok sEx ∧
    sEx.total_records = 1 ∧ sEx.consum ≠ [] ∧ rowConsum.data = "2024-01-01" := by
  refine ⟨fun st uid d d' tf => rfl, by rfl, by decide, by decide, by decide⟩

/-- C2 counterexample: on input `"Scor: 73/100"` score extraction yields 100
(digits `73100` clamped), not 73 as the claim's example states. -/
theorem C2_counterexample :
    extract_score "Scor: 73/100" ≠ 73 ∧ extract_score "Scor: 73/100" = 100 := by
  refine ⟨by decide, by decide⟩

/-- C2 (amended): score extraction keeps the digit characters, parses them as
an integer and clamps to [0, 100], defaulting to 50 when no digit remains;
examples: "Scor: 73/100" yields 100 (not 73), "N/A" yields 50, "150" yields
100, "-5" yields 5. -/
theorem C2_score_extraction :
    (∀ s : String, extract_score s = extract_score_spec s) ∧
    extract_score "Scor: 73/100" = 100 ∧ extract_score "N/A" = 50 ∧
    extract_score "150" = 100 ∧ extract_score "-5" = 5 := by
  refine ⟨?_, by decide, by decide, by decide, by decide⟩
  intro s
  unfold extract_score extract_score_spec parseDigits
  by_cases h : (s.toList.filter Char.isDigit).isEmpty
  · have h0 : s.toList.filter Char.isDigit = [] := by simpa [List.isEmpty_iff] using h
    have hany : s.toList.any Char.isDigit = false := by
      simp only [List.any_eq_false]
      intro a ha
      rw [List.filter_eq_nil_iff] at h0
      exact h0 a ha
    simp only [h, hany, eq_self_iff_true, if_true, Bool.false_eq_true, if_false]
  · have h0 : s.toList.filter Char.isDigit ≠ [] := by simpa [List.isEmpty_iff] using h
    have h' : (s.toList.filter Char.isDigit).isEmpty = false := by simpa using h
    have hany : s.toList.any Char.isDigit = true := by
      rcases List.exists_mem_of_ne_nil _ h0 with ⟨a, ha⟩
      rcases List.mem_filter.mp ha with ⟨ha1, ha2⟩
      exact List.any_eq_true.mpr ⟨a, ha1, ha2⟩
    simp only [h', hany, Bool.false_eq_true, if_false, if_true]
    omega

/-- C5: clinic-ID extraction selects the first clinic whose id equals the
stripped LLM response or whose name occurs in the raw response, falling back to
the first clinic; on `[Cardio(c1), Derma(c2)]`: response "c2" selects Derma,
"I recommend Cardio" selects Cardio, "unknown" falls back to Cardio (c1). -/
theorem C5_clinic_selection :
    (∀ (clinics : List Clinic) (resp : String),
      schedule_select clinics resp = schedule_select_spec clinics resp) ∧
    schedule_select [cCardio, cDerma] "c2" = some cDerma ∧
    schedule_select [cCardio, cDerma] "I recommend Cardio" = some cCardio ∧
    schedule_select [cCardio, cDerma] "unknown" = some cCardio := by
  refine ⟨?_, by decide, by decide, by decide⟩
  intro clinics resp
  unfold schedule_select schedule_select_spec
  rw [pickClinic_eq_find]

/-- C10: when the store accepts a write but returns no rows, the three
write-path operations return the empty dict `{}` (not the record that was
written, which is never empty) and do not raise; a store failure is re-raised
wrapped. -/
theorem C10_write_empty_rows :
    (∀ (uid data : String) (details : Details) (t : String),
      insert_general (fun _ => .ok []) uid data details t = .ok ([] : Row) ∧
      insert_general_record uid data details t ≠ ([] : Row)) ∧
    (∀ (uid cab data : String) (active : Bool),
      create_programare (fun _ => .ok []) uid cab data active = .ok ([] : Row) ∧
      create_programare_record uid cab data active ≠ ([] : Row)) ∧
    (∀ (pid : String) (active : Bool),
      update_programare_status (fun _ _ => .ok []) pid active = .ok ([] : Row)) ∧
    (∀ (e uid data : String) (details : Details) (t : String),
      insert_general (fun _ => .error e) uid data details t =
        .error ("Error inserting general data: " ++ e)) ∧
    (∀ (e uid cab data : String) (active : Bool),
      create_programare (fun _ => .error e) uid cab data active =
        .error ("Error creating programare: " ++ e)) ∧
    (∀ (e pid : String) (active : Bool),
      update_programare_status (fun _ _ => .error e) pid active =
        .error ("Error updating programare: " ++ e)) := by
  refine ⟨fun uid data details t => ⟨rfl, by simp [insert_general_record]⟩,
    fun uid cab data active => ⟨rfl, by simp [create_programare_record]⟩,
    fun pid active => rfl, fun e uid data details t => rfl,
    fun e uid cab data active => rfl, fun e pid active => rfl⟩

/-- C6: JSON recommendation extraction — a parse failure yields the full
unranked clinic list; an empty matched list yields the full unranked list;
a recommendation matching no stored clinic name (case-insensitively) is
dropped; a matching one is enriched with its score and reasoning; concrete:
"cardio" matches clinic Cardio case-insensitively, an unknown name falls back
to the full list. -/
theorem C6_recommendation_extraction :
    (∀ cab : List Clinic, recommend_result cab none = Sum.inr cab) ∧
    (∀ (cab : List Clinic) (recs : List Recommendation),
      match_recommendations cab recs = [] →
        recommend_result cab (some recs) = Sum.inr cab) ∧
    (∀ (cab : List Clinic) (r : Recommendation) (recs : List Recommendation),
      (∀ c ∈ cab, (pyLower c.nume == pyLower r.clinic_name) = false) →
      match_recommendations cab (r :: recs) = match_recommendations cab recs) ∧
    (∀ (cab : List Clinic) (r : Recommendation) (recs : List Recommendation) (c : Clinic),
      cab.find? (fun c => pyLower c.nume == pyLower r.clinic_name) = some c →
      match_recommendations cab (r :: recs) =
        ⟨c, r.score, r.reasoning⟩ :: match_recommendations cab recs) ∧
    recommend_result [cCardio, cDerma] (some [⟨"cardio", 90, "match"⟩]) =
      Sum.inl [⟨cCardio, 90, "match"⟩] ∧
    recommend_result [cCardio, cDerma] (some [⟨"Unknown Clinic", 90, "match"⟩]) =
      Sum.inr [cCardio, cDerma] := by
  refine ⟨fun cab => rfl, ?_, ?_, ?_, by decide, by decide⟩
  · intro cab recs h
    simp [recommend_result, h]
  · intro cab r recs h
    unfold match_recommendations
    rw [List.filterMap_cons]
    rw [List.find?_eq_none.mpr (fun x hx => by simp [h x hx])]
    rfl
  · intro cab r recs c h
    unfold match_recommendations
    rw [List.filterMap_cons, h]
    rfl
/-- A store whose `general` table read fails. -/
def storeGenErr : Store := ⟨.ok [pEx], .error "boom", .ok []⟩

/-- A provider that always fails with a rate-limit error. -/
def providerErr : String → Except String (Option String) := fun _ => .error "rate limit"

/-- C3 counterexample: the email summary template renders a summary whose
vitals bucket is empty with no vitals section and no placeholder line at all,
contradicting the claim that every template renders an empty bucket as a fixed
placeholder line and never omits the section. -/
theorem C3_counterexample :
    sEmpty.vitale = [] ∧
    strContains (format_health_summary_for_email sEmpty) "- No data recorded" = false ∧
    strContains (format_health_summary_for_email sEmpty) "- Nu există date înregistrate" = false ∧
    strContains (format_health_summary_for_email sEmpty) "VITAL" = false := by
  refine ⟨rfl, by decide, by decide, by decide⟩

/-- C3 (amended): the two `_format_data_section` templates render an empty
bucket as their fixed placeholder line (and otherwise the joined record lines);
the email HTML formatter instead omits the vitals/sleep/activity/nutrition
sections entirely for empty buckets, emitting a placeholder only for the
medication section. -/
theorem C3_empty_bucket_rendering :
    (∀ l, format_data_section l = format_data_section_spec "- No data recorded" "  Record " l) ∧
    (∀ l, format_data_section_ro l =
      format_data_section_spec "- Nu există date înregistrate" "  Înregistrare " l) ∧
    format_data_section [] = "- No data recorded" ∧
    format_data_section_ro [] = "- Nu există date înregistrate" ∧
    (∀ s : Summary, s.vitale = [] → s.somn = [] → s.sport = [] → s.consum = [] →
      s.medicamente = [] →
      emailParts s = [emailCss, emailProfilePart s.profile,
        "<div class=\"section\"><h3>💊 MEDICATION</h3><p>No medication records.</p></div>"]) ∧
    strContains (format_health_summary_for_email sEmpty) "No medication records." = true := by
  refine ⟨?_, ?_, rfl, rfl, ?_, by decide⟩
  · intro l
    cases l with
    | nil => rfl
    | cons a as => simp [format_data_section, format_data_section_spec, List.enum_cons]
  · intro l
    cases l with
    | nil => rfl
    | cons a as => simp [format_data_section_ro, format_data_section_spec, List.enum_cons]
  · intro s h1 h2 h3 h4 h5
    simp [emailParts, emailTableParts, emailMedParts, h1, h2, h3, h4, h5]

/-- C3 witness: the amended behavior evaluated on the concrete all-empty
summary. -/
theorem C3_witness :
    (sEmpty.vitale = [] ∧ sEmpty.somn = [] ∧ sEmpty.sport = [] ∧ sEmpty.consum = [] ∧
      sEmpty.medicamente = []) ∧
    emailParts sEmpty = [emailCss, emailProfilePart sEmpty.profile,
      "<div class=\"section\"><h3>💊 MEDICATION</h3><p>No medication records.</p></div>"] ∧
    format_data_section [] = "- No data recorded" :=
  ⟨⟨rfl, rfl, rfl, rfl, rfl⟩,
   C3_empty_bucket_rendering.2.2.2.2.1 sEmpty rfl rfl rfl rfl rfl,
   C3_empty_bucket_rendering.2.2.1⟩

/-- C4: on a successful build, `total_records` is the raw fetched count, and it
equals the sum of the five bucket lengths exactly when every fetched record
carries one of the five known category tags. -/
theorem C4_total_records_invariant (ps : List Profile) (rows : List GeneralRow)
    (cab : Except String (List Clinic)) (uid d : String) (s : Summary)
    (h : get_daily_summary ⟨.ok ps, .ok rows, cab⟩ uid d = .ok s) :
    s.total_records = (rows.filter (fun r => r.user_id == uid)).length ∧
    (bucketsSum s = s.total_records ↔
      ∀ r ∈ rows.filter (fun r => r.user_id == uid), r.type ∈ bucketKeys) := by
  have hred : get_daily_summary ⟨.ok ps, .ok rows, cab⟩ uid d =
      match processRecords
          { user_id := uid, profile := (ps.find? fun p => p.id == uid), date := d,
            consum := [], somn := [], vitale := [], sport := [], medicamente := [],
            total_records := (rows.filter (fun r => r.user_id == uid)).length }
          (rows.filter (fun r => r.user_id == uid)) with
      | .ok s => .ok s
      | .error e => .error ("Error generating daily summary: " ++ e) := rfl
  rw [hred] at h
  cases hb : processRecords
      { user_id := uid, profile := (ps.find? fun p => p.id == uid), date := d,
        consum := [], somn := [], vitale := [], sport := [], medicamente := [],
        total_records := (rows.filter (fun r => r.user_id == uid)).length }
      (rows.filter (fun r => r.user_id == uid)) with
  | error e => rw [hb] at h; simp at h
  | ok s1 =>
    rw [hb] at h
    simp only [Except.ok.injEq] at h
    subst h
    obtain ⟨ht, hsum⟩ := processRecords_ok _ _ _ hb
    have h0 : bucketsSum
        { user_id := uid, profile := (ps.find? fun p => p.id == uid), date := d,
          consum := [], somn := [], vitale := [], sport := [], medicamente := [],
          total_records := (rows.filter (fun r => r.user_id == uid)).length } = 0 := by
      simp [bucketsSum]
    have htot : s1.total_records = (rows.filter (fun r => r.user_id == uid)).length := ht
    refine ⟨htot, ?_⟩
    rw [hsum, h0, htot]
    simp only [Nat.zero_add]
    constructor
    · intro hlen r hr
      have := (filter_len_eq_iff _ _).mp hlen r hr
      simpa using this
    · intro hall
      apply (filter_len_eq_iff _ _).mpr
      intro a ha
      simpa using hall a ha

/-- C4 witness: the invariant evaluated on a store holding one profile and one
nutrition record. -/
theorem C4_witness :
    get_daily_summary ⟨.ok [pEx], .ok [rowConsum], .ok []⟩ "u1" "2024-01-02" = .ok sEx ∧
    (sEx.total_records = ([rowConsum].filter (fun r => r.user_id == "u1")).length ∧
     (bucketsSum sEx = sEx.total_records ↔
       ∀ r ∈ [rowConsum].filter (fun r => r.user_id == "u1"), r.type ∈ bucketKeys)) := by
  have h : get_daily_summary ⟨.ok [pEx], .ok [rowConsum], .ok []⟩ "u1" "2024-01-02" =
      .ok sEx := by rfl
  exact ⟨h, C4_total_records_invariant [pEx] [rowConsum] (.ok []) "u1" "2024-01-02" sEx h⟩
/-- C7: whenever the built summary carries no profile (`profile = null`), each
summary-dependent operation — the scheduler alert flow, `/gen_alert`, `/ask`
and `recommend_clinic` — reports the user as not found and performs zero LLM
invocations. -/
theorem C7_profile_absent_notfound :
    (∀ (store : Store) (provider : String → Except String (Option String)) (uid d : String)
      (s : Summary), get_daily_summary store uid d = .ok s → s.profile = none →
      generate_alert_for_user store provider uid d =
        (⟨uid, none, none, none, none, false, some "User not found"⟩, 0)) ∧
    (∀ (store : Store) (provider : String → Except String (Option String)) (uid d : String)
      (s : Summary), get_daily_summary store uid d = .ok s → s.profile = none →
      gen_alert store provider uid d =
        (.notFound ("User with ID " ++ uid ++ " not found"), 0)) ∧
    (∀ (store : Store) (provider : String → Except String (Option String)) (uid q d : String)
      (s : Summary), get_daily_summary store uid d = .ok s → s.profile = none →
      ask_llm store provider uid q d =
        (.notFound ("User with ID " ++ uid ++ " not found"), 0)) ∧
    (∀ (store : Store) (provider : String → Except String (Option String))
      (parse : String → Option (List Recommendation)) (uid : String)
      (chat : List (String × String)) (d : String) (s : Summary),
      get_daily_summary store uid d = .ok s → s.profile = none →
      recommend_clinic store provider parse uid chat d =
        (.notFound "User profile not found", 0)) := by
  refine ⟨?_, ?_, ?_, ?_⟩
  · intro store provider uid d s hsum hprof
    unfold generate_alert_for_user
    rw [hsum]
    simp [hprof]
  · intro store provider uid d s hsum hprof
    unfold gen_alert
    rw [hsum]
    simp [hprof]
  · intro store provider uid q d s hsum hprof
    unfold ask_llm
    rw [hsum]
    simp [hprof]
  · intro store provider parse uid chat d s hsum hprof
    unfold recommend_clinic
    rw [hsum]
    simp [hprof]

/-- C7 witness: the four flows evaluated on a store with no profiles. -/
theorem C7_witness :
    (get_daily_summary storeNoProf "u2" "2024-01-02" = .ok sNoProf ∧ sNoProf.profile = none) ∧
    generate_alert_for_user storeNoProf providerOk "u2" "2024-01-02" =
      (⟨"u2", none, none, none, none, false, some "User not found"⟩, 0) ∧
    gen_alert storeNoProf providerOk "u2" "2024-01-02" =
      (.notFound ("User with ID " ++ "u2" ++ " not found"), 0) ∧
    ask_llm storeNoProf providerOk "u2" "question" "2024-01-02" =
      (.notFound ("User with ID " ++ "u2" ++ " not found"), 0) ∧
    recommend_clinic storeNoProf providerOk (fun _ => none) "u2" [] "2024-01-02" =
      (.notFound "User profile not found", 0) := by
  have h : get_daily_summary storeNoProf "u2" "2024-01-02" = .ok sNoProf := by rfl
  exact ⟨⟨h, rfl⟩,
    C7_profile_absent_notfound.1 storeNoProf providerOk "u2" "2024-01-02" sNoProf h rfl,
    C7_profile_absent_notfound.2.1 storeNoProf providerOk "u2" "2024-01-02" sNoProf h rfl,
    C7_profile_absent_notfound.2.2.1 storeNoProf providerOk "u2" "question" "2024-01-02" sNoProf h rfl,
    C7_profile_absent_notfound.2.2.2 storeNoProf providerOk (fun _ => none) "u2" [] "2024-01-02" sNoProf h rfl⟩

/-- C8: when the profile exists but the summary counts zero records, both
alert-generation flows return success with their fixed no-data message and
perform zero LLM invocations. -/
theorem C8_zero_records_no_llm :
    (∀ (store : Store) (provider : String → Except String (Option String)) (uid d : String)
      (s : Summary), get_daily_summary store uid d = .ok s → s.profile.isNone = false →
      s.total_records = 0 →
      gen_alert store provider uid d = (.ok ⟨uid, d, s, genAlertNoDataMessage, true⟩, 0)) ∧
    (∀ (store : Store) (provider : String → Except String (Option String)) (uid d : String)
      (s : Summary), get_daily_summary store uid d = .ok s → s.profile.isNone = false →
      s.total_records = 0 →
      generate_alert_for_user store provider uid d =
        (⟨uid, some d, none, some "Nu există date înregistrate pentru această zi.",
          none, true, none⟩, 0)) := by
  refine ⟨?_, ?_⟩
  · intro store provider uid d s hsum hprof htot
    unfold gen_alert
    rw [hsum]
    simp [hprof, htot]
  · intro store provider uid d s hsum hprof htot
    unfold generate_alert_for_user
    rw [hsum]
    simp [hprof, htot]

/-- C8 witness: both flows evaluated on a store holding a profile and no
records. -/
theorem C8_witness :
    (get_daily_summary storeProfOnly "u1" "2024-01-02" = .ok sProfOnly ∧
      sProfOnly.profile.isNone = false ∧ sProfOnly.total_records = 0) ∧
    gen_alert storeProfOnly providerOk "u1" "2024-01-02" =
      (.ok ⟨"u1", "2024-01-02", sProfOnly, genAlertNoDataMessage, true⟩, 0) ∧
    generate_alert_for_user storeProfOnly providerOk "u1" "2024-01-02" =
      (⟨"u1", some "2024-01-02", none,
        some "Nu există date înregistrate pentru această zi.", none, true, none⟩, 0) := by
  have h : get_daily_summary storeProfOnly "u1" "2024-01-02" = .ok sProfOnly := by rfl
  exact ⟨⟨h, rfl, rfl⟩,
    C8_zero_records_no_llm.1 storeProfOnly providerOk "u1" "2024-01-02" sProfOnly h rfl rfl,
    C8_zero_records_no_llm.2 storeProfOnly providerOk "u1" "2024-01-02" sProfOnly h rfl rfl⟩

/-- C9: the per-user alert flow is total — whenever it reports failure it
carries an error message; a storage failure and a provider failure are both
converted into a `success = false` result rather than propagating; and batch
generation over a successfully fetched profile list always yields one result
per user with a truthy id, regardless of per-user failures. -/
theorem C9_alert_flow_total :
    (∀ (store : Store) (provider : String → Except String (Option String)) (uid d : String),
      (generate_alert_for_user store provider uid d).1.success = false →
      ((generate_alert_for_user store provider uid d).1.error).isSome = true) ∧
    (∀ (e : String) (store : Store) (provider : String → Except String (Option String))
      (uid d : String), store.general = .error e →
      generate_alert_for_user store provider uid d =
        (⟨uid, none, none, none, none, false,
          some ("Error generating daily summary: Error fetching general data: " ++ e)⟩, 0)) ∧
    (∀ (e : String) (store : Store) (provider : String → Except String (Option String))
      (uid d : String) (s : Summary), get_daily_summary store uid d = .ok s →
      s.profile.isNone = false → s.total_records ≠ 0 →
      provider (alert_prompt d s) = .error e →
      generate_alert_for_user store provider uid d =
        (⟨uid, none, none, none, none, false, some ("OpenAI API error: " ++ e)⟩, 1)) ∧
    (∀ (ps : List Profile) (general : Except String (List GeneralRow))
      (cabinete : Except String (List Clinic))
      (provider : String → Except String (Option String)) (d : String),
      ∃ results, generate_alerts_for_all_users ⟨.ok ps, general, cabinete⟩ provider d =
        .ok results ∧ results.length = (ps.filter (fun p => p.id ≠ "")).length) := by
  have key : ∀ (store : Store) (provider : String → Except String (Option String))
      (uid d : String),
      ((generate_alert_for_user store provider uid d).1.error).isSome = true ∨
      (generate_alert_for_user store provider uid d).1.success = true := by
    intro store provider uid d
    unfold generate_alert_for_user
    split
    · left; rfl
    · split
      · left; rfl
      · split
        · right; rfl
        · split
          · left; rfl
          · split
            · left; rfl
            · right; rfl
  refine ⟨?_, ?_, ?_, ?_⟩
  · intro store provider uid d hfail
    rcases key store provider uid d with h | h
    · exact h
    · rw [hfail] at h; cases h
  · intro e store provider uid d hg
    have hsum : get_daily_summary store uid d =
        .error ("Error generating daily summary: Error fetching general data: " ++ e) := by
      unfold get_daily_summary select_general
      rw [hg]
      rfl
    unfold generate_alert_for_user
    rw [hsum]
  · intro e store provider uid d s hsum hprof htot hprov
    have htot' : (s.total_records == 0) = false := by simpa using htot
    unfold generate_alert_for_user
    rw [hsum]
    simp only [hprof, Bool.false_eq_true, if_false, htot', get_llm_response, hprov]
  · intro ps general cabinete provider d
    refine ⟨_, rfl, ?_⟩
    simp

/-- C9 witness: the failure conversions and the batch shape evaluated on
concrete stores and providers. -/
theorem C9_witness :
    (storeGenErr.general = .error "boom") ∧
    generate_alert_for_user storeGenErr providerOk "u1" "2024-01-02" =
      (⟨"u1", none, none, none, none, false,
        some ("Error generating daily summary: Error fetching general data: " ++ "boom")⟩, 0) ∧
    generate_alert_for_user storeEx providerErr "u1" "2024-01-02" =
      (⟨"u1", none, none, none, none, false, some ("OpenAI API error: " ++ "rate limit")⟩, 1) ∧
    (∃ results, generate_alerts_for_all_users ⟨.ok [pEx], .error "boom", .ok []⟩ providerOk
        "2024-01-02" = .ok results ∧
      results.length = ([pEx].filter (fun p => p.id ≠ "")).length) := by
  have h : get_daily_summary storeEx "u1" "2024-01-02" = .ok sEx := by rfl
  exact ⟨rfl,
    C9_alert_flow_total.2.1 "boom" storeGenErr providerOk "u1" "2024-01-02" rfl,
    C9_alert_flow_total.2.2.1 "rate limit" storeEx providerErr "u1" "2024-01-02" sEx h rfl
      (by decide) rfl,
    C9_alert_flow_total.2.2.2 [pEx] (.error "boom") (.ok []) providerOk "2024-01-02"⟩

/-- C6 witness: the drop and enrich behaviors evaluated on the concrete clinic
store. -/
theorem C6_witness :
    (match_recommendations [cCardio, cDerma] [⟨"Unknown Clinic", 90, "match"⟩] = [] ∧
     recommend_result [cCardio, cDerma] (some [⟨"Unknown Clinic", 90, "match"⟩]) =
       Sum.inr [cCardio, cDerma]) ∧
    ([cCardio, cDerma].find?
        (fun c => pyLower c.nume == pyLower (Recommendation.mk "cardio" 90 "match").clinic_name) =
      some cCardio ∧
     match_recommendations [cCardio, cDerma] [⟨"cardio", 90, "match"⟩] =
       ⟨cCardio, 90, "match"⟩ :: match_recommendations [cCardio, cDerma] []) := by
  have h1 : match_recommendations [cCardio, cDerma] [⟨"Unknown Clinic", 90, "match"⟩] = [] := by
    decide
  have h2 : [cCardio, cDerma].find?
      (fun c => pyLower c.nume == pyLower (Recommendation.mk "cardio" 90 "match").clinic_name) =
      some cCardio := by decide
  exact ⟨⟨h1, C6_recommendation_extraction.2.1 [cCardio, cDerma]
      [⟨"Unknown Clinic", 90, "match"⟩] h1⟩,
    ⟨h2, C6_recommendation_extraction.2.2.2.1 [cCardio, cDerma]
      ⟨"cardio", 90, "match"⟩ [] cCardio h2⟩⟩
